import Mathlib

/-!
Verification of the CineMatch recommendation relay (src/index.js).

The JavaScript source is shallowly embedded: TMDb JSON items become the
structure `Item` (absent JSON fields are `Option.none`, JS numbers are
modelled as rationals), the relevance scorer and the merge/filter/rank
pipeline become pure Lean functions, and the stream handler becomes a
function over an abstract `Provider` describing every possible behaviour
of the external metadata API (each HTTP attempt either yields parsed JSON
or fails).
-/

namespace CineMatch

/-- One TMDb item, as consumed by src/index.js.  Fields that may be absent
from the provider JSON are options; JS numbers are modelled as rationals. -/
structure Item where
  id : Int
  title : Option String := none
  name : Option String := none
  popularity : Option ℚ := none
  vote_average : Option ℚ := none
  vote_count : Option Int := none
deriving DecidableEq

/-- Embeds `calculateRelevanceScore` (src/index.js lines 107-123).
The JS guard `!sourceDetails?.popularity || !item?.popularity` is true
exactly when either popularity is absent or equal to 0 (JS falsy);
`item.vote_average || 0` becomes `Option.getD 0`. -/
def calculateRelevanceScore (item sourceDetails : Item) : ℚ :=
  match sourceDetails.popularity, item.popularity with
  | some sourcePopularity, some itemPopularity =>
    if sourcePopularity = 0 ∨ itemPopularity = 0 then 0
    else
      min (itemPopularity / sourcePopularity) 1 * 50
        + item.vote_average.getD 0 / 10 * 50
  | _, _ => 0

/-- A candidate together with its derived relevance score: the JS object
`{...item, relevanceScore: calculateRelevanceScore(item, sourceDetails)}`. -/
structure Scored where
  item : Item
  relevanceScore : ℚ
deriving DecidableEq

/-- The map step of the pipeline (src/index.js lines 158-161). -/
def withRelevanceScore (sourceDetails item : Item) : Scored :=
  { item := item, relevanceScore := calculateRelevanceScore item sourceDetails }

/-- The vote-count filter predicate `item.vote_count >= MINIMUM_VOTE_COUNT`
(src/index.js line 157); a missing `vote_count` compares as false in JS. -/
def voteCountAtLeast (minimumVoteCount : Int) (item : Item) : Bool :=
  match item.vote_count with
  | some v => decide (minimumVoteCount ≤ v)
  | none => false

/-- The dedup step `.filter((item, index, self) => index === self.findIndex(t =>
t.id === item.id))` (src/index.js lines 155-156): an element is kept exactly
when its index equals the index of the first element with the same id. -/
def dedupById (l : List Item) : List Item :=
  (l.enum.filter (fun p => l.findIdx (fun t => t.id == p.2.id) == p.1)).map Prod.snd

/-- The sort comparator `(a, b) => b.relevanceScore - a.relevanceScore`
(src/index.js line 162), i.e. descending by relevance score, expressed as the
precedence test used by the sort: `a` may come before `b` when
`b.relevanceScore ≤ a.relevanceScore`. -/
def scoreDescending (a b : Scored) : Bool :=
  decide (b.relevanceScore ≤ a.relevanceScore)

/-- Embeds the `allRecommendations` pipeline (src/index.js lines 154-163):
concatenate similar and recommended, dedup by id keeping the first
occurrence, drop items below the vote-count minimum, attach relevance
scores, sort descending by score (JS sort is stable, as is mergeSort),
and truncate to the configured maximum. -/
def processRecommendations (similar recommended : List Item) (sourceDetails : Item)
    (minimumVoteCount : Int) (maxRecommendations : Nat) : List Scored :=
  ((((dedupById (similar ++ recommended)).filter (voteCountAtLeast minimumVoteCount)).map
      (withRelevanceScore sourceDetails)).mergeSort scoreDescending).take maxRecommendations

/-- Response body of the find-by-external-id endpoint as used by `getTMDbId`:
`data.movie_results` and `data.tv_results`, either of which may be absent. -/
structure FindData where
  movie_results : Option (List Item) := none
  tv_results : Option (List Item) := none

/-- Response body of the similar/recommendations endpoints: `data.results`
may be absent (`data.results || []`). -/
structure ResultsPage where
  results : Option (List Item) := none

/-- One possible behaviour of the external metadata API: for each endpoint,
the outcome of each successive HTTP attempt (attempt `n` either yields
parsed JSON, or fails with a network error / non-2xx status, which
`fetchWithRetry` surfaces as a thrown error modelled by `Except.error`). -/
structure Provider where
  findResponses : Nat → Except Unit FindData
  detailResponses : Nat → Except Unit Item
  similarResponses : Nat → Except Unit ResultsPage
  recommendationResponses : Nat → Except Unit ResultsPage

/-- The loop body of `fetchWithRetry` (src/index.js lines 25-38): try attempt
`i`; on success return the JSON, on failure rethrow if this was the last
allowed attempt and otherwise retry (the backoff sleep has no observable
effect on the result). -/
def attemptFrom {α : Type} (responses : Nat → Except Unit α) (i : Nat) : Nat → Except Unit α
  | 0 => Except.error ()
  | n + 1 =>
    match responses i with
    | Except.ok a => Except.ok a
    | Except.error e => if n = 0 then Except.error e else attemptFrom responses (i + 1) n

/-- The default `retries = 3` of `fetchWithRetry`, used by every call site. -/
def defaultRetries : Nat := 3

/-- Embeds `fetchWithRetry` (src/index.js lines 25-38) over the per-attempt
outcomes of one endpoint. -/
def fetchWithRetry {α : Type} (responses : Nat → Except Unit α) (retries : Nat) : Except Unit α :=
  attemptFrom responses 0 retries

/-- Embeds `getTMDbId` (src/index.js lines 58-75): resolve the IMDb id to a
TMDb id, returning `none` when the lookup fails after retries, when the
per-kind result array is absent, or when it is empty.  The `imdbId`
argument only feeds the request URL, which the abstract provider absorbs. -/
def getTMDbId (p : Provider) (imdbId type : String) : Option Int :=
  match fetchWithRetry p.findResponses defaultRetries with
  | Except.error _ => none
  | Except.ok data =>
    match (if type = "movie" then data.movie_results else data.tv_results) with
    | none => none
    | some [] => none
    | some (r :: _) => some r.id

/-- Embeds `getTMDbSimilar` (src/index.js lines 77-90): the similar-titles
list, or `[]` when the fetch fails after retries or `results` is absent. -/
def getTMDbSimilar (p : Provider) (tmdbId : Int) (type : String) : List Item :=
  match fetchWithRetry p.similarResponses defaultRetries with
  | Except.error _ => []
  | Except.ok data => data.results.getD []

/-- Embeds `getTMDbRecommendations` (src/index.js lines 92-105), analogous
to `getTMDbSimilar`. -/
def getTMDbRecommendations (p : Provider) (tmdbId : Int) (type : String) : List Item :=
  match fetchWithRetry p.recommendationResponses defaultRetries with
  | Except.error _ => []
  | Except.ok data => data.results.getD []

/-- One output stream record (src/index.js lines 166-178).  The presentation
badge (`name`) and thumbnail fields are built purely from the candidate's
display fields and are not inspected by any claim; the record keeps the
fields the spec's claims can observe. -/
structure StreamRec where
  title : Option String
  url : String
  bingeGroup : String
deriving DecidableEq

/-- JS `a || b` on an optional string: the fallback fires when `a` is absent
or the empty string (falsy). -/
def jsOrString (a : Option String) (b : Option String) : Option String :=
  match a with
  | some s => if s = "" then b else some s
  | none => b

/-- Maps one ranked candidate to a stream record (src/index.js lines 166-178):
`title: rec.title || rec.name`, a themoviedb.org deep link, and the fixed
binge group. -/
def mkStream (mediaType : String) (rec : Scored) : StreamRec :=
  { title := jsOrString rec.item.title rec.item.name,
    url := "https://www.themoviedb.org/" ++ mediaType ++ "/" ++ toString rec.item.id,
    bingeGroup := "cinematch-recommendations" }

/-- The id prefix before the first colon: `id.split(':')[0]`
(src/index.js line 131). -/
def jsBaseId (id : String) : String :=
  (id.splitOn ":").headD ""

/-- The handler's reply shape `{ streams }`. -/
structure StreamsResult where
  streams : List StreamRec
deriving DecidableEq

/-- The configuration read at startup: `MINIMUM_VOTE_COUNT` and
`MAX_RECOMMENDATIONS` (src/index.js lines 6-7). -/
structure Config where
  minimumVoteCount : Int
  maxRecommendations : Nat

/-- Embeds the stream handler (src/index.js lines 126-188).  The outer
try/catch corresponds to the `Except.error` branch of the source-details
fetch (the only uncaught fetch inside the handler); every other failure is
already absorbed by `getTMDbId` / the two candidate fetchers. -/
def streamHandler (cfg : Config) (p : Provider) (type id : String) : StreamsResult :=
  let baseId := jsBaseId id
  let mediaType := if type = "series" then "tv" else type
  match getTMDbId p baseId type with
  | none => { streams := [] }
  | some tmdbId =>
    match fetchWithRetry p.detailResponses defaultRetries with
    | Except.error _ => { streams := [] }
    | Except.ok sourceDetails =>
      let similar := getTMDbSimilar p tmdbId type
      let recommended := getTMDbRecommendations p tmdbId type
      let allRecommendations :=
        processRecommendations similar recommended sourceDetails
          cfg.minimumVoteCount cfg.maxRecommendations
      { streams := allRecommendations.map (mkStream mediaType) }

/-- The development fallback literal of src/index.js line 5. -/
def fallbackApiKey : String := "62ad28e80c6de28ca22d86345e0587de"

/-- `TMDB_API_KEY = process.env.TMDB_API_KEY || <fallback>` (src/index.js
line 5): the environment value when present and non-empty (truthy),
otherwise the built-in fallback key. -/
def tmdbApiKey (env : Option String) : String :=
  match env with
  | some s => if s = "" then fallbackApiKey else s
  | none => fallbackApiKey

/-- The startup validation `if (!TMDB_API_KEY) { ...; process.exit(1) }`
(src/index.js lines 10-13): the process logs an error and exits exactly
when the effective key is falsy, i.e. the empty string. -/
def startupExitsWithError (env : Option String) : Bool :=
  tmdbApiKey env == ""

/-- Sample source item used by concrete witnesses. -/
def sampleSource : Item :=
  { id := 100, popularity := some 10 }

/-- Sample candidate passing the default vote-count filter. -/
def sampleA : Item :=
  { id := 1, popularity := some 10, vote_average := some 8, vote_count := some 100 }

/-- Sample candidate failing the default vote-count filter. -/
def sampleB : Item :=
  { id := 2, popularity := some 5, vote_average := some 6, vote_count := some 10 }

/-- Sample duplicate of `sampleA`'s id with different payload, as the
recommended-list copy. -/
def sampleDup : Item :=
  { id := 1, popularity := some 3, vote_average := some 4, vote_count := some 60 }

/-- Provider whose find endpoint succeeds but matches nothing, and whose
other endpoints fail. -/
def emptyFindProvider : Provider :=
  { findResponses := fun _ => Except.ok {},
    detailResponses := fun _ => Except.error (),
    similarResponses := fun _ => Except.error (),
    recommendationResponses := fun _ => Except.error () }

/-! Theorems about the relevance scorer. -/

/-- Claim C3 counterexample: a candidate with strictly negative popularity
(which is ≤ 0) passes the JS falsy guard, so the score is -50, not 0 as the
claim states. -/
theorem score_neg_popularity_not_zero :
    ({ id := 1, popularity := some (-10) } : Item).popularity = some (-10)
    ∧ (-10 : ℚ) < 0
    ∧ calculateRelevanceScore { id := 1, popularity := some (-10) }
        { id := 2, popularity := some 10 } = -50
    ∧ calculateRelevanceScore { id := 1, popularity := some (-10) }
        { id := 2, popularity := some 10 } ≠ 0 := by
  refine ⟨rfl, by norm_num, ?_, ?_⟩ <;> norm_num [calculateRelevanceScore, min_def]

/-- Claim C3 (amended): if the candidate's popularity is 0 or missing, or
the source item's popularity is 0 or missing (the JS-falsy cases), the
relevance score is 0. -/
theorem score_zero_of_falsy_popularity (item sourceDetails : Item)
    (h : sourceDetails.popularity = none ∨ sourceDetails.popularity = some 0
      ∨ item.popularity = none ∨ item.popularity = some 0) :
    calculateRelevanceScore item sourceDetails = 0 := by
  rcases h with h | h | h | h
  · cases hip : item.popularity <;> simp [calculateRelevanceScore, h, hip]
  · cases hip : item.popularity <;> simp [calculateRelevanceScore, h, hip]
  · cases hsp : sourceDetails.popularity <;> simp [calculateRelevanceScore, h, hsp]
  · cases hsp : sourceDetails.popularity <;> simp [calculateRelevanceScore, h, hsp]

/-- Witness for the amended C3 at a candidate with missing popularity. -/
theorem score_zero_of_falsy_popularity_witness :
    calculateRelevanceScore { id := 3 } sampleSource = 0 :=
  score_zero_of_falsy_popularity { id := 3 } sampleSource (Or.inr (Or.inr (Or.inl rfl)))

/-- Claim C4 counterexample: with a vote average of 20 the score is 150,
outside [0,100], so the claim fails for arbitrary vote-average values. -/
theorem score_exceeds_100_counterexample :
    (100 : ℚ) < calculateRelevanceScore
      { id := 1, popularity := some 5, vote_average := some 20 }
      { id := 2, popularity := some 5 } := by
  norm_num [calculateRelevanceScore, min_def]

/-- Claim C4 (amended): for popularity values that are nonnegative when
present and a vote average in [0,10] when present (the ranges the data
model guarantees), the relevance score lies in [0,100]. -/
theorem score_in_unit_range (item sourceDetails : Item)
    (hip : 0 ≤ item.popularity.getD 0)
    (hsp : 0 ≤ sourceDetails.popularity.getD 0)
    (hva0 : 0 ≤ item.vote_average.getD 0)
    (hva10 : item.vote_average.getD 0 ≤ 10) :
    0 ≤ calculateRelevanceScore item sourceDetails
      ∧ calculateRelevanceScore item sourceDetails ≤ 100 := by
  cases hs : sourceDetails.popularity with
  | none => norm_num [calculateRelevanceScore, hs]
  | some sp =>
    cases hi : item.popularity with
    | none => norm_num [calculateRelevanceScore, hs, hi]
    | some ip =>
      rw [hi] at hip; rw [hs] at hsp
      simp only [Option.getD_some] at hip hsp
      by_cases h0 : sp = 0 ∨ ip = 0
      · simp only [calculateRelevanceScore, hs, hi]
        rw [if_pos h0]
        norm_num
      · simp only [calculateRelevanceScore, hs, hi]
        rw [if_neg h0]
        push_neg at h0
        obtain ⟨hsne, hine⟩ := h0
        have hsp' : 0 < sp := hsp.lt_of_ne (Ne.symm hsne)
        have hip' : 0 < ip := hip.lt_of_ne (Ne.symm hine)
        have hmin0 : 0 ≤ min (ip / sp) 1 := le_min (div_pos hip' hsp').le zero_le_one
        have hmin1 : min (ip / sp) 1 ≤ 1 := min_le_right _ _
        constructor <;> linarith

/-- Witness for the amended C4 at a concrete candidate and source. -/
theorem score_in_unit_range_witness :
    0 ≤ calculateRelevanceScore sampleA sampleSource
      ∧ calculateRelevanceScore sampleA sampleSource ≤ 100 :=
  score_in_unit_range sampleA sampleSource (by norm_num [sampleA])
    (by norm_num [sampleSource]) (by norm_num [sampleA]) (by norm_num [sampleA])

/-- Claim C5: for a fixed source item (nonnegative popularity when present)
and a candidate with nonnegative vote average, the score is monotonically
non-decreasing in the candidate's popularity over the nonnegative range;
and for a fixed source item it is monotonically non-decreasing in the
candidate's vote average.  In both cases the two compared candidates
differ only in the one varied field. -/
theorem score_monotone (sourceDetails base : Item) (p₁ p₂ v₁ v₂ : ℚ)
    (hsp : 0 ≤ sourceDetails.popularity.getD 0)
    (hva : 0 ≤ base.vote_average.getD 0)
    (hp₁ : 0 ≤ p₁) (hp : p₁ ≤ p₂) (hv : v₁ ≤ v₂) :
    calculateRelevanceScore { base with popularity := some p₁ } sourceDetails
      ≤ calculateRelevanceScore { base with popularity := some p₂ } sourceDetails
    ∧ calculateRelevanceScore { base with vote_average := some v₁ } sourceDetails
      ≤ calculateRelevanceScore { base with vote_average := some v₂ } sourceDetails := by
  cases hs : sourceDetails.popularity with
  | none => constructor <;> simp [calculateRelevanceScore, hs]
  | some sp =>
    rw [hs] at hsp
    simp only [Option.getD_some] at hsp
    by_cases hs0 : sp = 0
    · refine ⟨by simp [calculateRelevanceScore, hs, hs0], ?_⟩
      cases hb : base.popularity <;> simp [calculateRelevanceScore, hs, hs0, hb]
    · have hsp' : 0 < sp := hsp.lt_of_ne (Ne.symm hs0)
      constructor
      · by_cases hp₁0 : p₁ = 0
        · have h₁ : calculateRelevanceScore { base with popularity := some p₁ }
              sourceDetails = 0 := by
            simp [calculateRelevanceScore, hs, hp₁0]
          rw [h₁]
          by_cases hp₂0 : p₂ = 0
          · have h₂ : calculateRelevanceScore { base with popularity := some p₂ }
                sourceDetails = 0 := by
              simp [calculateRelevanceScore, hs, hp₂0]
            rw [h₂]
          · have hp₂' : 0 < p₂ := (hp₁0 ▸ hp).lt_of_ne (Ne.symm hp₂0)
            simp only [calculateRelevanceScore, hs]
            rw [if_neg (by tauto)]
            have hm : 0 ≤ min (p₂ / sp) 1 := le_min (div_pos hp₂' hsp').le zero_le_one
            linarith
        · have hp₁' : 0 < p₁ := hp₁.lt_of_ne (Ne.symm hp₁0)
          have hp₂' : 0 < p₂ := lt_of_lt_of_le hp₁' hp
          simp only [calculateRelevanceScore, hs]
          rw [if_neg (by push_neg; exact ⟨hs0, ne_of_gt hp₁'⟩),
            if_neg (by push_neg; exact ⟨hs0, ne_of_gt hp₂'⟩)]
          have hdiv : p₁ / sp ≤ p₂ / sp := by gcongr
          have hmin : min (p₁ / sp) 1 ≤ min (p₂ / sp) 1 := min_le_min hdiv le_rfl
          linarith
      · cases hb : base.popularity with
        | none => simp [calculateRelevanceScore, hs, hb]
        | some bp =>
          by_cases hb0 : bp = 0
          · simp [calculateRelevanceScore, hs, hb, hb0]
          · simp only [calculateRelevanceScore, hs, hb, Option.getD_some]
            rw [if_neg (by tauto), if_neg (by tauto)]
            have : v₁ / 10 * 50 ≤ v₂ / 10 * 50 := by linarith
            linarith

/-- Witness for C5 at concrete popularity and vote-average pairs. -/
theorem score_monotone_witness :
    calculateRelevanceScore { sampleA with popularity := some 1 } sampleSource
      ≤ calculateRelevanceScore { sampleA with popularity := some 2 } sampleSource
    ∧ calculateRelevanceScore { sampleA with vote_average := some 3 } sampleSource
      ≤ calculateRelevanceScore { sampleA with vote_average := some 4 } sampleSource :=
  score_monotone sampleSource sampleA 1 2 3 4 (by norm_num [sampleSource])
    (by norm_num [sampleA]) (by norm_num) (by norm_num) (by norm_num)

/-! Deduplication lemmas. -/

/-- `find?` returns the element at the index `findIdx` reports. -/
theorem find?_eq_getElem?_findIdx {α : Type} (p : α → Bool) (l : List α) :
    l.find? p = l[l.findIdx p]? := by
  induction l with
  | nil => rfl
  | cons x xs ih =>
    cases h : p x <;> simp [List.find?_cons, List.findIdx_cons, h, ih]

/-- An item survives `dedupById` exactly when it is the first element of the
list carrying its id. -/
theorem mem_dedupById {l : List Item} {y : Item} :
    y ∈ dedupById l ↔ l.find? (fun t => t.id == y.id) = some y := by
  unfold dedupById
  constructor
  · intro hy
    rcases List.mem_map.mp hy with ⟨q, hq, hsnd⟩
    rcases List.mem_filter.mp hq with ⟨henum, hidx⟩
    have hidx' : l.findIdx (fun t => t.id == q.2.id) = q.1 := by simpa using hidx
    have hget : l[q.1]? = some q.2 := List.mem_enum_iff_getElem?.mp henum
    rw [← hsnd, find?_eq_getElem?_findIdx, hidx', hget]
  · intro hfind
    have hget : l[l.findIdx (fun t => t.id == y.id)]? = some y := by
      rw [← find?_eq_getElem?_findIdx]; exact hfind
    refine List.mem_map.mpr ⟨(l.findIdx (fun t => t.id == y.id), y), ?_, rfl⟩
    exact List.mem_filter.mpr ⟨List.mk_mem_enum_iff_getElem?.mpr hget, by simp⟩

/-- The ids surviving `dedupById` are pairwise distinct. -/
theorem nodup_ids_dedupById (l : List Item) :
    (List.map (fun y => y.id) (dedupById l)).Nodup := by
  unfold dedupById
  rw [List.map_map]
  have hbase : List.Pairwise (fun q r : Nat × Item => q.1 < r.1) l.enum := by
    have h1 := List.pairwise_lt_range l.length
    rw [← List.enum_map_fst l] at h1
    exact (List.pairwise_map).mp h1
  have hf : List.Pairwise (fun q r : Nat × Item => q.1 < r.1)
      (l.enum.filter (fun p => l.findIdx (fun t => t.id == p.2.id) == p.1)) :=
    hbase.filter _
  rw [List.Nodup, List.pairwise_map]
  refine hf.imp_of_mem ?_
  intro a b ha hb hlt
  have hpa : l.findIdx (fun t => t.id == a.2.id) = a.1 := by
    simpa using (List.mem_filter.mp ha).2
  have hpb : l.findIdx (fun t => t.id == b.2.id) = b.1 := by
    simpa using (List.mem_filter.mp hb).2
  intro heq
  have hfun : (fun t : Item => t.id == a.2.id) = (fun t : Item => t.id == b.2.id) := by
    funext t
    simp only [Function.comp] at heq
    rw [heq]
  rw [hfun, hpb] at hpa
  omega

/-- Every id occurring in the input still has a representative after
`dedupById`. -/
theorem dedupById_covers {l : List Item} {x : Item} (hx : x ∈ l) :
    ∃ y ∈ dedupById l, y.id = x.id := by
  have hsome : (l.find? (fun t => t.id == x.id)).isSome :=
    List.find?_isSome.mpr ⟨x, hx, by simp⟩
  obtain ⟨y, hy⟩ := Option.isSome_iff_exists.mp hsome
  have hyid : y.id = x.id := by simpa using List.find?_some hy
  refine ⟨y, ?_, hyid⟩
  rw [mem_dedupById]
  have hfun : (fun t : Item => t.id == y.id) = (fun t : Item => t.id == x.id) := by
    funext t; rw [hyid]
  rw [hfun]
  exact hy

/-- Claim C6: over `similar ++ recommended`, deduplication keeps exactly one
element per input id (countP one), every survivor is the first occurrence of
its id in the concatenation, and a survivor whose id occurs in `similar` is
itself an element of `similar` (the similar copy wins over the recommended
one). -/
theorem dedupById_keeps_first (similar recommended : List Item) :
    (∀ x ∈ similar ++ recommended,
      (dedupById (similar ++ recommended)).countP (fun y => y.id == x.id) = 1)
    ∧ (∀ y ∈ dedupById (similar ++ recommended),
      (similar ++ recommended).find? (fun t => t.id == y.id) = some y)
    ∧ (∀ x ∈ similar, ∀ y ∈ dedupById (similar ++ recommended),
      y.id = x.id → y ∈ similar) := by
  refine ⟨?_, ?_, ?_⟩
  · intro x hx
    obtain ⟨y, hyd, hyid⟩ := dedupById_covers hx
    have hmem : x.id ∈ List.map (fun y => y.id) (dedupById (similar ++ recommended)) :=
      List.mem_map.mpr ⟨y, hyd, hyid⟩
    have hcount : List.count x.id
        (List.map (fun y => y.id) (dedupById (similar ++ recommended))) = 1 :=
      List.count_eq_one_of_mem (nodup_ids_dedupById _) hmem
    rw [List.count, List.countP_map] at hcount
    exact hcount
  · intro y hy
    exact mem_dedupById.mp hy
  · intro x hxs y hy hid
    have hfind := mem_dedupById.mp hy
    rw [List.find?_append] at hfind
    have hsome : (similar.find? (fun t => t.id == y.id)).isSome :=
      List.find?_isSome.mpr ⟨x, hxs, by simp [hid]⟩
    obtain ⟨z, hz⟩ := Option.isSome_iff_exists.mp hsome
    rw [hz] at hfind
    simp only [Option.or_some] at hfind
    cases hfind
    exact List.mem_of_find?_eq_some hz

/-- Witness for C6: in `[sampleA] ++ [sampleDup, sampleB]` the duplicated
id 1 survives exactly once, and the survivor carrying `sampleA`'s id comes
from the similar list. -/
theorem dedupById_keeps_first_witness :
    (dedupById ([sampleA] ++ [sampleDup, sampleB])).countP
      (fun y => y.id == sampleA.id) = 1 :=
  (dedupById_keeps_first [sampleA] [sampleDup, sampleB]).1 sampleA (by simp)

/-! Pipeline invariants. -/

/-- The descending-score comparator is transitive. -/
theorem scoreDescending_trans (a b c : Scored) (hab : scoreDescending a b = true)
    (hbc : scoreDescending b c = true) : scoreDescending a c = true := by
  simp only [scoreDescending, decide_eq_true_eq] at hab hbc ⊢
  exact le_trans hbc hab

/-- The descending-score comparator is total. -/
theorem scoreDescending_total (a b : Scored) :
    (scoreDescending a b || scoreDescending b a) = true := by
  simp only [scoreDescending, Bool.or_eq_true, decide_eq_true_eq]
  exact le_total _ _

/-- Every element of the pipeline output carries a present vote count that
meets the configured minimum. -/
theorem vote_count_of_mem_processRecommendations {similar recommended : List Item}
    {sourceDetails : Item} {minimumVoteCount : Int} {maxRecommendations : Nat} {s : Scored}
    (hs : s ∈ processRecommendations similar recommended sourceDetails
      minimumVoteCount maxRecommendations) :
    ∃ v, s.item.vote_count = some v ∧ minimumVoteCount ≤ v := by
  unfold processRecommendations at hs
  have h1 := List.mem_of_mem_take hs
  have h2 := (List.mergeSort_perm _ scoreDescending).mem_iff.mp h1
  rcases List.mem_map.mp h2 with ⟨item, hitem, hrfl⟩
  rcases List.mem_filter.mp hitem with ⟨hmem, hvote⟩
  cases hvc : item.vote_count with
  | none => simp [voteCountAtLeast, hvc] at hvote
  | some v =>
    refine ⟨v, ?_, ?_⟩
    · rw [← hrfl]
      exact hvc
    · have := hvote
      simp only [voteCountAtLeast, hvc, decide_eq_true_eq] at this
      exact this

/-- Claim C1: for all fetched candidate lists, any source item, and any
configured minimum vote count and maximum count, the pipeline output is
sorted by relevance score descending, has pairwise distinct ids, contains
only items whose vote count is present and at least the minimum, and is no
longer than the maximum. -/
theorem processRecommendations_invariants (similar recommended : List Item)
    (sourceDetails : Item) (minimumVoteCount : Int) (maxRecommendations : Nat) :
    List.Pairwise (fun a b : Scored => b.relevanceScore ≤ a.relevanceScore)
      (processRecommendations similar recommended sourceDetails
        minimumVoteCount maxRecommendations)
    ∧ (List.map (fun s => s.item.id)
        (processRecommendations similar recommended sourceDetails
          minimumVoteCount maxRecommendations)).Nodup
    ∧ (∀ s ∈ processRecommendations similar recommended sourceDetails
        minimumVoteCount maxRecommendations,
        ∃ v, s.item.vote_count = some v ∧ minimumVoteCount ≤ v)
    ∧ (processRecommendations similar recommended sourceDetails
        minimumVoteCount maxRecommendations).length ≤ maxRecommendations := by
  refine ⟨?_, ?_, ?_, ?_⟩
  · have hs := List.sorted_mergeSort scoreDescending_trans scoreDescending_total
      (((dedupById (similar ++ recommended)).filter
        (voteCountAtLeast minimumVoteCount)).map (withRelevanceScore sourceDetails))
    have ht := List.Pairwise.sublist (List.take_sublist maxRecommendations _) hs
    exact ht.imp (fun h => of_decide_eq_true h)
  · have h0 := nodup_ids_dedupById (similar ++ recommended)
    have h1 : (List.map (fun y => y.id) ((dedupById (similar ++ recommended)).filter
        (voteCountAtLeast minimumVoteCount))).Nodup :=
      List.Nodup.sublist (List.Sublist.map _ (List.filter_sublist _)) h0
    have h2 : (List.map (fun s : Scored => s.item.id)
        (((dedupById (similar ++ recommended)).filter
          (voteCountAtLeast minimumVoteCount)).map
            (withRelevanceScore sourceDetails))).Nodup := by
      rw [List.map_map]
      exact h1
    have h3 : (List.map (fun s : Scored => s.item.id)
        ((((dedupById (similar ++ recommended)).filter
          (voteCountAtLeast minimumVoteCount)).map
            (withRelevanceScore sourceDetails)).mergeSort scoreDescending)).Nodup :=
      (((List.mergeSort_perm _ scoreDescending).map _).nodup_iff).mpr h2
    exact List.Nodup.sublist (List.Sublist.map _ (List.take_sublist _ _)) h3
  · intro s hs
    exact vote_count_of_mem_processRecommendations hs
  · unfold processRecommendations
    rw [List.length_take]
    exact inf_le_left

/-- Witness for C1: the sample run respects the configured maximum. -/
theorem processRecommendations_invariants_witness :
    (processRecommendations [sampleA] [sampleB] sampleSource 50 30).length ≤ 30 :=
  (processRecommendations_invariants [sampleA] [sampleB] sampleSource 50 30).2.2.2

/-- Claim C10: a merged candidate whose vote-count field is absent never
appears in the pipeline output, whatever the configured minimum is. -/
theorem no_missing_vote_count (similar recommended : List Item) (sourceDetails : Item)
    (minimumVoteCount : Int) (maxRecommendations : Nat) :
    ∀ s ∈ processRecommendations similar recommended sourceDetails
      minimumVoteCount maxRecommendations, s.item.vote_count ≠ none := by
  intro s hs
  obtain ⟨v, hv, _⟩ := vote_count_of_mem_processRecommendations hs
  rw [hv]
  simp

/-- The sample run of the pipeline evaluates to the single surviving scored
candidate: `sampleB` is filtered out by vote count. -/
theorem processRecommendations_sample :
    processRecommendations [sampleA] [sampleB] sampleSource 50 30
      = [withRelevanceScore sampleSource sampleA] := by
  have hd : dedupById ([sampleA] ++ [sampleB]) = [sampleA, sampleB] := by decide
  have hf : List.filter (voteCountAtLeast 50) [sampleA, sampleB] = [sampleA] := by decide
  unfold processRecommendations
  rw [hd, hf]
  simp [List.mergeSort_singleton]

/-- Witness for C10: the surviving sample candidate is in the output and its
vote count is present. -/
theorem no_missing_vote_count_witness :
    withRelevanceScore sampleSource sampleA
        ∈ processRecommendations [sampleA] [sampleB] sampleSource 50 30
    ∧ (withRelevanceScore sampleSource sampleA).item.vote_count ≠ none :=
  ⟨by rw [processRecommendations_sample]; exact List.mem_singleton.mpr rfl,
    no_missing_vote_count [sampleA] [sampleB] sampleSource 50 30 _
      (by rw [processRecommendations_sample]; exact List.mem_singleton.mpr rfl)⟩

/-! Handler and startup theorems. -/

/-- Retrying a call whose every attempt fails yields the propagated error. -/
theorem attemptFrom_error {α : Type} (i n : Nat) :
    attemptFrom (fun _ => (Except.error () : Except Unit α)) i n = Except.error () := by
  induction n generalizing i with
  | zero => rfl
  | succ n ih =>
    by_cases h : n = 0
    · simp [attemptFrom, h]
    · simp [attemptFrom, h, ih]

/-- Claim C2: for every configuration, every provider behaviour and every
request, the handler returns a well-formed result (some list of streams);
and on the failure paths that abort the request — the external-id lookup
failing after retries, or the source-details fetch failing after retries —
the result is the empty stream list.  No error crosses the handler
boundary: `streamHandler` is a total function into `StreamsResult`. -/
theorem streamHandler_no_raise (cfg : Config) (p : Provider) (type id : String) :
    (∃ l, streamHandler cfg p type id = { streams := l })
    ∧ streamHandler cfg { p with findResponses := fun _ => Except.error () } type id
        = { streams := [] }
    ∧ streamHandler cfg { p with detailResponses := fun _ => Except.error () } type id
        = { streams := [] } := by
  refine ⟨⟨(streamHandler cfg p type id).streams, rfl⟩, ?_, ?_⟩
  · simp [streamHandler, getTMDbId, fetchWithRetry, defaultRetries, attemptFrom_error]
  · simp only [streamHandler]
    cases hid : getTMDbId { p with detailResponses := fun _ => Except.error () }
        (jsBaseId id) type with
    | none => rfl
    | some tmdbId =>
      simp [fetchWithRetry, defaultRetries, attemptFrom_error]

/-- Claim C7: when the identifier resolver finds no TMDb id, the handler
short-circuits to the empty stream list. -/
theorem streamHandler_not_found (cfg : Config) (p : Provider) (type id : String)
    (h : getTMDbId p (jsBaseId id) type = none) :
    streamHandler cfg p type id = { streams := [] } := by
  simp only [streamHandler]
  rw [h]

/-- Witness for C7: a provider whose find endpoint succeeds with no match
resolves to no id, and the handler replies with the empty stream list. -/
theorem streamHandler_not_found_witness :
    getTMDbId emptyFindProvider (jsBaseId "tt1:1") "movie" = none
    ∧ streamHandler { minimumVoteCount := 50, maxRecommendations := 30 }
        emptyFindProvider "movie" "tt1:1" = { streams := [] } :=
  ⟨rfl, streamHandler_not_found { minimumVoteCount := 50, maxRecommendations := 30 }
    emptyFindProvider "movie" "tt1:1" rfl⟩

/-- A handler run against a provider whose two candidate fetchers always
fail ends in the empty stream list, whatever the other endpoints do. -/
theorem streamHandler_empty_fetchers (cfg : Config) (q : Provider) (type id : String)
    (hsim : q.similarResponses = fun _ => Except.error ())
    (hrec : q.recommendationResponses = fun _ => Except.error ()) :
    streamHandler cfg q type id = { streams := [] } := by
  simp only [streamHandler]
  cases hid : getTMDbId q (jsBaseId id) type with
  | none => rfl
  | some tmdbId =>
    cases hdet : fetchWithRetry q.detailResponses defaultRetries with
    | error e => simp
    | ok sourceDetails =>
      have hempty : processRecommendations [] [] sourceDetails
          cfg.minimumVoteCount cfg.maxRecommendations = [] := by
        simp [processRecommendations, dedupById]
      simp [hempty, getTMDbSimilar, getTMDbRecommendations, hsim, hrec,
        fetchWithRetry, defaultRetries, attemptFrom_error]

/-- Claim C8: a candidate fetcher whose attempts all fail returns the empty
list for its source; a handler run with one failed fetcher equals the run
where that fetcher succeeded with an empty list (ranking proceeds on the
other source); and when both fetchers fail the handler returns the empty
stream list. -/
theorem fetchers_fail_soft (cfg : Config) (p : Provider) (tmdbId : Int) (type id : String) :
    getTMDbSimilar { p with similarResponses := fun _ => Except.error () } tmdbId type = []
    ∧ getTMDbRecommendations
        { p with recommendationResponses := fun _ => Except.error () } tmdbId type = []
    ∧ streamHandler cfg { p with similarResponses := fun _ => Except.error () } type id
        = streamHandler cfg
          { p with similarResponses := fun _ => Except.ok { results := some [] } } type id
    ∧ streamHandler cfg
        { p with recommendationResponses := fun _ => Except.error () } type id
        = streamHandler cfg
          { p with recommendationResponses := fun _ => Except.ok { results := some [] } }
          type id
    ∧ streamHandler cfg
        { p with
          similarResponses := fun _ => Except.error (),
          recommendationResponses := fun _ => Except.error () } type id
        = { streams := [] } := by
  exact ⟨rfl, rfl, rfl, rfl, streamHandler_empty_fetchers cfg _ type id rfl rfl⟩

/-- Claim C9 counterexample: with the API key missing from the environment,
the effective key is the built-in fallback and the startup validation does
not exit — the claimed fatal path does not fire. -/
theorem startup_missing_key_no_exit :
    tmdbApiKey none = fallbackApiKey
    ∧ fallbackApiKey ≠ ""
    ∧ startupExitsWithError none = false :=
  ⟨rfl, by decide, rfl⟩

/-- Claim C9 (amended): a missing or empty environment key is replaced by
the non-empty built-in development fallback, so the startup check
`if (!TMDB_API_KEY) process.exit(1)` never exits, for any environment. -/
theorem startup_never_exits (env : Option String) :
    startupExitsWithError env = false := by
  cases env with
  | none => rfl
  | some s =>
    by_cases h : s = ""
    · simp [startupExitsWithError, tmdbApiKey, h]
      decide
    · simp only [startupExitsWithError, tmdbApiKey, if_neg h]
      rw [beq_eq_false_iff_ne]
      exact h

end CineMatch
